import Mathlib

/-!
# Verification of the styled-components study repository

Shallow embedding of the repository's theme objects, styled-component
style interpolations, and the demo applications, together with theorems
settling the specification claims.

JavaScript values relevant here are strings, plain objects, and
`undefined`; member access on an object returns the field value or
`undefined`, and member access on `undefined` throws a `TypeError`.
Objects are encoded as chains of fields in source order (`objCons`
ending in `objNil`); `JsVal.ofFields` builds such a chain from a list,
so the theme literals below read like the JavaScript source.
-/

/-- A JavaScript value as used in this repository: `undefined`, a string
literal, or a plain object given by its fields in source order. -/
inductive JsVal where
  | undef : JsVal
  | str : String → JsVal
  | objNil : JsVal
  | objCons : String → JsVal → JsVal → JsVal
deriving Repr, DecidableEq

/-- Build an object from its field list in source order. -/
def JsVal.ofFields : List (String × JsVal) → JsVal
  | [] => .objNil
  | (k, v) :: fs => .objCons k v (ofFields fs)

/-- Walk an object chain keeping the value of the last field named `key`
seen so far (later bindings win, as in JavaScript object literals). -/
def jsGetAux (cur : JsVal) : JsVal → String → JsVal
  | .objCons k v rest, key => jsGetAux (if k = key then v else cur) rest key
  | _, _ => cur

/-- Total member access `o[key]`: the last binding of `key` on an object,
`undefined` when the key is missing or `o` is not an object. -/
def JsVal.get (o : JsVal) (key : String) : JsVal := jsGetAux .undef o key

/-- Member access `o[key]` with JavaScript error semantics: accessing a
member of `undefined` throws a `TypeError`; on a string value the keys
used here yield `undefined`. -/
def JsVal.getE : JsVal → String → Except String JsVal
  | .undef, _ => .error "TypeError"
  | o, key => .ok (o.get key)

/-- Concatenate two field chains (the second argument replaces a
non-object first argument). -/
def JsVal.append : JsVal → JsVal → JsVal
  | .objCons k v rest, extra => .objCons k v (rest.append extra)
  | _, extra => extra

/-- Object spread `{...base, extra}`: the extra fields follow the base
fields in the chain, so under `JsVal.get` later (extra) keys override. -/
def JsVal.spread (base : JsVal) (extra : List (String × JsVal)) : JsVal :=
  base.append (.ofFields extra)

/-- The string key produced by a computed member access `o[x]` when `x` is
an optional string: an absent (`undefined`) index is coerced to the string
key `"undefined"`, as JavaScript does. -/
def keyOf : Option String → String
  | some s => s
  | none => "undefined"

/-- `v` is a plain object all of whose field values are string literals. -/
def isStringMap : JsVal → Bool
  | .objNil => true
  | .objCons _ (.str _) rest => isStringMap rest
  | _ => false

example : JsVal.get (.ofFields [("a", .str "1"), ("a", .str "2")]) "a" = .str "2" := by decide
example : JsVal.get (.ofFields [("a", .str "1")]) "b" = .undef := by decide

/-! ## Theme objects (src/theme/theme.js and the older standalone theme module) -/

/-- `baseTheme` from src/theme/theme.js: spacing, typography and
breakpoint tokens shared by the light and dark themes. -/
def baseTheme : JsVal := .ofFields [
  ("spacing", .ofFields [
    ("xs", .str "4px"), ("sm", .str "8px"), ("md", .str "16px"),
    ("lg", .str "24px"), ("xl", .str "32px")]),
  ("typography", .ofFields [
    ("xs", .str "12px"), ("sm", .str "14px"), ("md", .str "16px"),
    ("lg", .str "18px"), ("xl", .str "24px")]),
  ("breakpoints", .ofFields [
    ("mobile", .str "480px"), ("tablet", .str "768px"), ("desktop", .str "1024px")])]

/-- `lightTheme` from src/theme/theme.js: `{...baseTheme, colors, gradients}`. -/
def lightTheme : JsVal := baseTheme.spread [
  ("colors", .ofFields [
    ("primary", .str "#007bff"), ("danger", .str "#dc3545"),
    ("success", .str "#28a745"), ("background", .str "#ffffff"),
    ("text", .str "#333333")]),
  ("gradients", .ofFields [
    ("main", .str "linear-gradient(135deg, #667eea 0%, #764ba2 50%, #f093fb 100%)")])]

/-- `darkTheme` from src/theme/theme.js: `{...baseTheme, colors, gradients}`. -/
def darkTheme : JsVal := baseTheme.spread [
  ("colors", .ofFields [
    ("primary", .str "#4dabf7"), ("danger", .str "#ff6b6b"),
    ("success", .str "#51cf66"), ("background", .str "#1a1a1a"),
    ("text", .str "#ffffff")]),
  ("gradients", .ofFields [
    ("main", .str "linear-gradient(135deg, #1e3c72 0%, #2a5298 50%, #000000 100%)")])]

/-- The standalone `theme` export (the theme module version imported as
`{ theme }` by the Card-file App): colors, spacing, typography and
breakpoints — and no gradients category. -/
def theme : JsVal := .ofFields [
  ("colors", .ofFields [
    ("primary", .str "#007bff"), ("secondary", .str "#6c757d"),
    ("danger", .str "#dc3545")]),
  ("spacing", .ofFields [
    ("xs", .str "4px"), ("sm", .str "8px"), ("md", .str "16px"),
    ("lg", .str "24px"), ("xl", .str "32px")]),
  ("typography", .ofFields [
    ("xs", .str "12px"), ("sm", .str "14px"), ("md", .str "16px"),
    ("lg", .str "18px"), ("xl", .str "24px")]),
  ("breakpoints", .ofFields [
    ("mobile", .str "480px"), ("tablet", .str "768px"), ("desktop", .str "1024px")])]

/-! ## Component props and style interpolations -/

/-- The transient props consumed by the styled components' interpolation
functions: `$variant` and `$size` on Button, `$state` and `$size` on
Input. An absent prop is `none` (JavaScript `undefined`). -/
structure Props where
  variant : Option String
  size : Option String
  state : Option String
deriving Repr, DecidableEq

/-- Button's background interpolation:
`props => props.theme.colors[props.$variant]`. -/
def buttonBackground (th : JsVal) (p : Props) : Except String JsVal := do
  let colors ← th.getE "colors"
  colors.getE (keyOf p.variant)

/-- Button's padding interpolation:
`props => props.$size === 'large' ? '15px 30px' : '10px 20px'`. -/
def buttonPadding (p : Props) : String :=
  if p.size = some "large" then "15px 30px" else "10px 20px"

/-- Button's font-size interpolation:
`props => props.$size === 'large' ? '40px' : '16px'`. -/
def buttonFontSize (p : Props) : String :=
  if p.size = some "large" then "40px" else "16px"

/-- Input's border-color interpolation: danger color on `$state === 'error'`,
success color on `$state === 'success'`, `'#ccc'` otherwise. -/
def inputBorderColor (th : JsVal) (p : Props) : Except String JsVal :=
  if p.state = some "error" then do
    let c ← th.getE "colors"
    c.getE "danger"
  else if p.state = some "success" then do
    let c ← th.getE "colors"
    c.getE "success"
  else pure (.str "#ccc")

/-- Input's font-size interpolation: typography sm/lg/md by `$size`. -/
def inputFontSize (th : JsVal) (p : Props) : Except String JsVal :=
  if p.size = some "small" then do
    let t ← th.getE "typography"
    t.getE "sm"
  else if p.size = some "large" then do
    let t ← th.getE "typography"
    t.getE "lg"
  else do
    let t ← th.getE "typography"
    t.getE "md"

/-- Input's padding interpolation: spacing sm/lg/md by `$size`. -/
def inputPadding (th : JsVal) (p : Props) : Except String JsVal :=
  if p.size = some "small" then do
    let s ← th.getE "spacing"
    s.getE "sm"
  else if p.size = some "large" then do
    let s ← th.getE "spacing"
    s.getE "lg"
  else do
    let s ← th.getE "spacing"
    s.getE "md"

/-- Input's focus border-color interpolation:
`props => props.theme.colors.primary`. -/
def inputFocusBorderColor (th : JsVal) : Except String JsVal := do
  let c ← th.getE "colors"
  c.getE "primary"

/-- Grid's gap interpolation: `props => props.theme.spacing.lg`. -/
def gridGap (th : JsVal) : Except String JsVal := do
  let s ← th.getE "spacing"
  s.getE "lg"

/-- Grid's tablet media-query bound:
`props => props.theme.breakpoints.tablet`. -/
def gridTabletBp (th : JsVal) : Except String JsVal := do
  let b ← th.getE "breakpoints"
  b.getE "tablet"

/-- Grid's mobile media-query bound:
`props => props.theme.breakpoints.mobile`. -/
def gridMobileBp (th : JsVal) : Except String JsVal := do
  let b ← th.getE "breakpoints"
  b.getE "mobile"

/-- GradientBackground's background interpolation:
`props => props.theme.gradients.main`. -/
def gradientBackgroundMain (th : JsVal) : Except String JsVal := do
  let g ← th.getE "gradients"
  g.getE "main"

/-! ## The demo application (the App with the dark/light toggle) -/

/-- The App's state: `useState(0)` gives the `count` number and
`useState(false)` gives the `isDark` flag. -/
structure AppState where
  count : Nat
  isDark : Bool
deriving Repr, DecidableEq

/-- The App's initial state: `count = 0`, `isDark = false`. -/
def appInit : AppState := ⟨0, false⟩

/-- The toggle button's click handler `() => setIsDark(!isDark)`:
it flips the flag and touches nothing else. -/
def toggleClick (s : AppState) : AppState := ⟨s.count, !s.isDark⟩

/-- `currentTheme = isDark ? darkTheme : lightTheme`, the theme object
handed to the ThemeProvider. -/
def currentTheme (s : AppState) : JsVal :=
  if s.isDark then darkTheme else lightTheme

/-- The state after `n` activations of the toggle control, starting from
the initial state.  The toggle is the only event handler in the App. -/
def appAfterClicks (n : Nat) : AppState := toggleClick^[n] appInit

/-! ## Transient props and passthrough -/

/-- The names of the props consumed by the style interpolation functions
of the styled components, read off the Button and Input sources. -/
def consumedFlagNames : List String := ["$variant", "$size", "$state"]

/-- The name `s` begins with the character `$`. -/
def startsDollar (s : String) : Bool :=
  match s.data with
  | c :: _ => c = '$'
  | [] => false

/-- Modelled from the spec: the passthrough filter itself lives in the
external styling framework, not in this repository.  The spec's glossary
defines a transient prop as a parameter whose name marks it style-only so
it is excluded from passthrough to the underlying markup element; the
marker is the `$` name prefix.  So the attribute set forwarded to the
markup element is the prop list with every `$`-prefixed entry removed. -/
def forwardedProps (ps : List (String × JsVal)) : List (String × JsVal) :=
  ps.filter (fun kv => !(startsDollar kv.1))

/-- Rewrite the values of the `$`-prefixed entries of a prop list by `f`,
leaving every other entry unchanged: this produces an arbitrary second
prop list that differs from `ps` only in transient-prop values. -/
def restyleProps (f : String → JsVal) (ps : List (String × JsVal)) :
    List (String × JsVal) :=
  ps.map (fun kv => if startsDollar kv.1 then (kv.1, f kv.1) else kv)

/-! ## Grid media queries -/

/-- The decimal value of an ASCII digit character (code points 48-57). -/
def digitVal (c : Char) : Option Nat :=
  if 48 ≤ c.toNat ∧ c.toNat ≤ 57 then some (c.toNat - 48) else none

/-- Accumulate the leading decimal digits of a character list. -/
def pxChars : List Char → Nat → Nat
  | c :: rest, acc =>
      match digitVal c with
      | some d => pxChars rest (acc * 10 + d)
      | none => acc
  | [], acc => acc

/-- Numeric value of a CSS pixel length string, e.g. "480px" to 480
(the comparison a `max-width` media query performs). -/
def pxVal : JsVal → Nat
  | .str s => pxChars s.data 0
  | _ => 0

/-- The numeric breakpoint `name` of theme `th`. -/
def bpNat (th : JsVal) (name : String) : Nat :=
  pxVal ((th.get "breakpoints").get name)

/-- Grid's column count at viewport width `w`: the base rule sets 3
columns; the `max-width: tablet` rule (2 columns) and then the
`max-width: mobile` rule (1 column) apply in source order, a later
applicable rule overriding an earlier one. -/
def gridColumns (th : JsVal) (w : Nat) : Nat :=
  [(bpNat th "tablet", 2), (bpNat th "mobile", 1)].foldl
    (fun acc r => if w ≤ r.1 then r.2 else acc) 3

/-! ## Button and IconButton declaration lists -/

/-- The effective value of CSS property `prop` in a declaration list:
the last declaration of `prop` wins, `undefined` if never declared. -/
def declsGet (fs : List (String × JsVal)) (prop : String) : JsVal :=
  List.foldl (fun acc kv => if kv.1 = prop then kv.2 else acc) .undef fs

/-- Button's style declarations in source order (static strings plus the
three interpolations). -/
def buttonDecls (th : JsVal) (p : Props) :
    Except String (List (String × JsVal)) := do
  let bg ← buttonBackground th p
  pure [("background", bg), ("color", .str "white"),
        ("padding", .str (buttonPadding p)),
        ("font-size", .str (buttonFontSize p)),
        ("margin", .str "10px")]

/-- IconButton's style declarations: `styled(Button)` extends Button, so
its own declarations follow Button's and take precedence. -/
def iconButtonDecls (th : JsVal) (p : Props) :
    Except String (List (String × JsVal)) := do
  let base ← buttonDecls th p
  pure (base ++ [("width", .str "100px"), ("height", .str "40px"),
                 ("padding", .str "0"), ("border-radius", .str "30%")])

/-- The effective style of a component for property `prop` (propagating a
thrown interpolation error). -/
def effStyle (decls : Except String (List (String × JsVal)))
    (prop : String) : Except String JsVal :=
  Except.map (fun fs => declsGet fs prop) decls

instance : DecidableEq (Except String JsVal) := fun a b =>
  match a, b with
  | .ok x, .ok y => decidable_of_iff (x = y) (by simp)
  | .error x, .error y => decidable_of_iff (x = y) (by simp)
  | .ok _, .error _ => .isFalse (by simp)
  | .error _, .ok _ => .isFalse (by simp)

/-- No style interpolation of Button, Input or Grid throws on theme `th`:
each returns an `ok` value for the given props. -/
def interpNoThrow (th : JsVal) (p : Props) : Bool :=
  (buttonBackground th p).isOk && (inputBorderColor th p).isOk &&
  (inputFontSize th p).isOk && (inputPadding th p).isOk &&
  (inputFocusBorderColor th).isOk && (gridGap th).isOk &&
  (gridTabletBp th).isOk && (gridMobileBp th).isOk

/-- IconButton's effective style under theme `th` and props `p`: its own
trailing declarations win for padding, width, height and border-radius,
while its background is still Button's `colors[$variant]` lookup. -/
def iconButtonOverride (th : JsVal) (p : Props) : Prop :=
  effStyle (iconButtonDecls th p) "padding" = .ok (.str "0") ∧
  effStyle (iconButtonDecls th p) "width" = .ok (.str "100px") ∧
  effStyle (iconButtonDecls th p) "height" = .ok (.str "40px") ∧
  effStyle (iconButtonDecls th p) "border-radius" = .ok (.str "30%") ∧
  effStyle (iconButtonDecls th p) "background" = buttonBackground th p ∧
  effStyle (iconButtonDecls th p) "background" =
    .ok ((th.get "colors").get (keyOf p.variant))

/-! ## Theorems -/

/-- Looking a key up in a concatenation of field chains continues the
walk: the accumulated value from the first chain seeds the second. -/
theorem jsGetAux_append (a : JsVal) (b : JsVal) (k : String) :
    ∀ cur, jsGetAux cur (a.append b) k = jsGetAux (jsGetAux cur a k) b k := by
  induction a with
  | undef => intro cur; rfl
  | str s => intro cur; rfl
  | objNil => intro cur; rfl
  | objCons k' v rest ihv ihrest =>
      intro cur
      simp only [JsVal.append, jsGetAux]
      exact ihrest _

/-- C1 counterexample: the first Button of the theme-importing App is
rendered with `$size="large"` and no `$variant`; its background
interpolation looks up `theme.colors[undefined]`, which is `undefined` —
not a defined value, contrary to the claim's "including the Button
rendered with no $variant". -/
theorem button_no_variant_background_undefined :
    buttonBackground theme ⟨none, some "large", none⟩ = .ok JsVal.undef := by
  decide

/-- C1 (amended): every other theme token path referenced inside a style
interpolation resolves, on every theme object actually supplied together
with every prop valuation the demo application uses, to a defined string
value: Grid's spacing.lg and breakpoint lookups and the gradient
background's gradients.main under both lightTheme and darkTheme, and the
Button/IconButton color lookups for the `$variant` values "primary" and
"danger" under the standalone theme. -/
theorem theme_key_existence_amended :
    gridGap lightTheme = .ok (.str "24px") ∧
    gridGap darkTheme = .ok (.str "24px") ∧
    gridTabletBp lightTheme = .ok (.str "768px") ∧
    gridTabletBp darkTheme = .ok (.str "768px") ∧
    gridMobileBp lightTheme = .ok (.str "480px") ∧
    gridMobileBp darkTheme = .ok (.str "480px") ∧
    gradientBackgroundMain lightTheme =
      .ok (.str "linear-gradient(135deg, #667eea 0%, #764ba2 50%, #f093fb 100%)") ∧
    gradientBackgroundMain darkTheme =
      .ok (.str "linear-gradient(135deg, #1e3c72 0%, #2a5298 50%, #000000 100%)") ∧
    buttonBackground theme ⟨some "primary", none, none⟩ = .ok (.str "#007bff") ∧
    buttonBackground theme ⟨some "danger", none, none⟩ = .ok (.str "#dc3545") := by
  decide

/-- C3 counterexample: the standalone `theme` object does not map the
category name gradients to a sub-object at all — the lookup yields
`undefined`, so not every theme object carries all five categories. -/
theorem standalone_theme_missing_gradients :
    theme.get "gradients" = JsVal.undef := by
  decide

/-- C3 (amended): lightTheme and darkTheme map all five category names to
string-valued sub-objects; the standalone `theme` maps only colors,
spacing, typography and breakpoints (gradients is absent); `baseTheme`
maps only spacing, typography and breakpoints; and every leaf value of
every present category of every theme object is a string. -/
theorem theme_token_maps_amended :
    isStringMap (lightTheme.get "spacing") = true ∧
    isStringMap (lightTheme.get "typography") = true ∧
    isStringMap (lightTheme.get "breakpoints") = true ∧
    isStringMap (lightTheme.get "colors") = true ∧
    isStringMap (lightTheme.get "gradients") = true ∧
    isStringMap (darkTheme.get "spacing") = true ∧
    isStringMap (darkTheme.get "typography") = true ∧
    isStringMap (darkTheme.get "breakpoints") = true ∧
    isStringMap (darkTheme.get "colors") = true ∧
    isStringMap (darkTheme.get "gradients") = true ∧
    isStringMap (theme.get "colors") = true ∧
    isStringMap (theme.get "spacing") = true ∧
    isStringMap (theme.get "typography") = true ∧
    isStringMap (theme.get "breakpoints") = true ∧
    theme.get "gradients" = JsVal.undef ∧
    isStringMap (baseTheme.get "spacing") = true ∧
    isStringMap (baseTheme.get "typography") = true ∧
    isStringMap (baseTheme.get "breakpoints") = true ∧
    baseTheme.get "colors" = JsVal.undef ∧
    baseTheme.get "gradients" = JsVal.undef := by
  decide

/-- C4: spreading `baseTheme` into lightTheme and darkTheme leaves their
spacing, typography and breakpoints exactly equal to baseTheme's, adds no
colors or gradients to baseTheme itself, and the two constructed themes
agree on every key other than colors and gradients while differing on
those two. -/
theorem base_token_frame :
    (lightTheme.get "spacing" = baseTheme.get "spacing" ∧
     lightTheme.get "typography" = baseTheme.get "typography" ∧
     lightTheme.get "breakpoints" = baseTheme.get "breakpoints" ∧
     darkTheme.get "spacing" = baseTheme.get "spacing" ∧
     darkTheme.get "typography" = baseTheme.get "typography" ∧
     darkTheme.get "breakpoints" = baseTheme.get "breakpoints") ∧
    (baseTheme.get "colors" = JsVal.undef ∧
     baseTheme.get "gradients" = JsVal.undef) ∧
    (∀ k : String, k ≠ "colors" → k ≠ "gradients" →
       lightTheme.get k = darkTheme.get k) ∧
    (lightTheme.get "colors" ≠ darkTheme.get "colors" ∧
     lightTheme.get "gradients" ≠ darkTheme.get "gradients") := by
  refine ⟨by decide, by decide, ?_, by decide⟩
  intro k h1 h2
  simp only [lightTheme, darkTheme, JsVal.get, JsVal.spread, jsGetAux_append]
  simp only [JsVal.ofFields, jsGetAux]
  simp only [if_neg (Ne.symm h1), if_neg (Ne.symm h2)]

/-- Witness for `base_token_frame`: instantiating the frame clause at the
key "spacing" with its hypotheses discharged. -/
theorem base_token_frame_witness :
    lightTheme.get "spacing" = darkTheme.get "spacing" :=
  base_token_frame.2.2.1 "spacing" (by decide) (by decide)

/-- C2 counterexample: the App's state is not the one boolean flag alone —
`useState(0)` introduces a second state variable `count`, so two app
states with the same flag value can differ.  This refutes "no other state
variable existing" at the concrete states ⟨0, false⟩ and ⟨1, false⟩. -/
theorem app_state_beyond_flag :
    ¬ (∀ s t : AppState, s.isDark = t.isDark → s = t) := fun h =>
  absurd (h ⟨0, false⟩ ⟨1, false⟩ rfl) (by decide)

/-- C2 (amended): each activation of the toggle control flips exactly the
`isDark` flag and leaves the other state variable `count` unchanged; the
theme provided to the component tree is darkTheme exactly when the flag
is true and lightTheme exactly when it is false; and although a second
state variable `count` exists, it is never updated — after any number of
toggle activations it still holds its initial value 0. -/
theorem toggle_flag_state_machine :
    (∀ s : AppState,
       (toggleClick s).isDark = !s.isDark ∧
       (toggleClick s).count = s.count ∧
       (currentTheme s = darkTheme ↔ s.isDark = true) ∧
       (currentTheme s = lightTheme ↔ s.isDark = false)) ∧
    (∀ n : Nat, (appAfterClicks n).count = 0) := by
  constructor
  · intro s
    refine ⟨rfl, rfl, ?_, ?_⟩
    · cases h : s.isDark <;> simp [currentTheme, h]
      decide
    · cases h : s.isDark <;> simp [currentTheme, h]
      decide
  · intro n
    induction n with
    | zero => rfl
    | succ m ih =>
        unfold appAfterClicks at ih ⊢
        rw [Function.iterate_succ_apply']
        simpa [toggleClick] using ih

/-- C5: for every props value, Button's padding interpolation returns
'15px 30px' exactly when `$size === 'large'` and '10px 20px' otherwise,
its font-size interpolation returns '40px' exactly when
`$size === 'large'` and '16px' otherwise, and its background
interpolation returns the `colors[$variant]` lookup of the supplied
theme (for each theme object the demo applications supply). -/
theorem button_selector_correct :
    ∀ p : Props,
      (buttonPadding p = "15px 30px" ↔ p.size = some "large") ∧
      (buttonPadding p = "10px 20px" ↔ p.size ≠ some "large") ∧
      (buttonFontSize p = "40px" ↔ p.size = some "large") ∧
      (buttonFontSize p = "16px" ↔ p.size ≠ some "large") ∧
      buttonBackground lightTheme p =
        .ok ((lightTheme.get "colors").get (keyOf p.variant)) ∧
      buttonBackground darkTheme p =
        .ok ((darkTheme.get "colors").get (keyOf p.variant)) ∧
      buttonBackground theme p =
        .ok ((theme.get "colors").get (keyOf p.variant)) := by
  intro p
  refine ⟨?_, ?_, ?_, ?_, rfl, rfl, rfl⟩ <;>
    by_cases h : p.size = some "large" <;>
      simp [buttonPadding, buttonFontSize, h]

/-- C6: for every props value and every theme object the demo supplies,
Input's border-color interpolation returns the theme's danger color on
`$state === 'error'`, the success color on `$state === 'success'`, and
'#ccc' otherwise; its font-size interpolation returns typography
sm/lg/md and its padding interpolation spacing sm/lg/md by `$size`. -/
theorem input_selector_correct :
    ∀ (p : Props) (th : JsVal), th ∈ [lightTheme, darkTheme, theme] →
      (p.state = some "error" →
        inputBorderColor th p = .ok ((th.get "colors").get "danger")) ∧
      (p.state = some "success" →
        inputBorderColor th p = .ok ((th.get "colors").get "success")) ∧
      (p.state ≠ some "error" → p.state ≠ some "success" →
        inputBorderColor th p = .ok (.str "#ccc")) ∧
      (p.size = some "small" →
        inputFontSize th p = .ok ((th.get "typography").get "sm") ∧
        inputPadding th p = .ok ((th.get "spacing").get "sm")) ∧
      (p.size = some "large" →
        inputFontSize th p = .ok ((th.get "typography").get "lg") ∧
        inputPadding th p = .ok ((th.get "spacing").get "lg")) ∧
      (p.size ≠ some "small" → p.size ≠ some "large" →
        inputFontSize th p = .ok ((th.get "typography").get "md") ∧
        inputPadding th p = .ok ((th.get "spacing").get "md")) := by
  intro p th hth
  have hcases : th = lightTheme ∨ th = darkTheme ∨ th = theme := by
    simpa using hth
  rcases hcases with h | h | h <;> subst h <;>
    exact ⟨fun h1 => by simp only [inputBorderColor, h1]; decide,
           fun h1 => by simp only [inputBorderColor, h1]; decide,
           fun h1 h2 => by
             simp only [inputBorderColor]; rw [if_neg h1, if_neg h2]; decide,
           fun h1 => by
             constructor <;> (simp only [inputFontSize, inputPadding, h1]; decide),
           fun h1 => by
             constructor <;> (simp only [inputFontSize, inputPadding, h1]; decide),
           fun h1 h2 => by
             constructor <;>
               (simp only [inputFontSize, inputPadding]
                rw [if_neg h1, if_neg h2]; decide)⟩

/-- Witness for `input_selector_correct`, at lightTheme with
`$state="error"` and `$size="small"`. -/
theorem input_selector_correct_witness :
    inputBorderColor lightTheme ⟨none, some "small", some "error"⟩ =
      .ok ((lightTheme.get "colors").get "danger") ∧
    inputFontSize lightTheme ⟨none, some "small", some "error"⟩ =
      .ok ((lightTheme.get "typography").get "sm") := by
  have h := input_selector_correct ⟨none, some "small", some "error"⟩
    lightTheme (List.Mem.head _)
  exact ⟨h.1 rfl, (h.2.2.2.1 rfl).1⟩

/-- C7: every style-only flag consumed by the components' interpolations
has a name beginning with '$', and the attribute set forwarded to the
underlying markup element is unchanged when a prop list's '$'-prefixed
values are rewritten arbitrarily (two runs differing only in transient
props forward identical attributes). -/
theorem transient_prop_noninterference :
    consumedFlagNames.all (fun n => startsDollar n) = true ∧
    ∀ (f : String → JsVal) (ps : List (String × JsVal)),
      forwardedProps (restyleProps f ps) = forwardedProps ps := by
  refine ⟨by decide, ?_⟩
  intro f ps
  induction ps with
  | nil => rfl
  | cons kv rest ih =>
      by_cases h : startsDollar kv.1 = true <;>
        simpa [forwardedProps, restyleProps, List.filter_cons, h] using ih

/-- C8: for every prop valuation (including absent flags), every style
interpolation evaluated with a theme its component is actually supplied
with returns a value instead of throwing; a missing theme key (the
variant-less Button lookup, the standalone theme's missing success
color) surfaces as the `undefined` value inside an `ok` result, never as
an error. -/
theorem style_interpolations_total :
    ∀ p : Props,
      interpNoThrow lightTheme p = true ∧
      interpNoThrow darkTheme p = true ∧
      interpNoThrow theme p = true ∧
      (gradientBackgroundMain lightTheme).isOk = true ∧
      (gradientBackgroundMain darkTheme).isOk = true ∧
      buttonBackground theme ⟨none, none, none⟩ = .ok JsVal.undef ∧
      inputBorderColor theme ⟨none, none, some "success"⟩ = .ok JsVal.undef := by
  intro p
  refine ⟨?_, ?_, ?_, by decide, by decide, by decide, by decide⟩ <;>
    (unfold interpNoThrow inputBorderColor inputFontSize inputPadding
     split_ifs <;> rfl)

/-- C9: in every theme object the breakpoints are mobile = 480 <
tablet = 768 < desktop = 1024 pixels; hence any viewport width
satisfying Grid's mobile max-width query satisfies its tablet query, and
the cascade resolves Grid's columns to 1 for widths up to 480, 2 for
widths in (480, 768], and 3 above — the later 1-column rule taking
precedence below the mobile breakpoint. -/
theorem breakpoint_ordering_nesting :
    (bpNat lightTheme "mobile" = 480 ∧ bpNat lightTheme "tablet" = 768 ∧
     bpNat lightTheme "desktop" = 1024 ∧
     bpNat darkTheme "mobile" = 480 ∧ bpNat darkTheme "tablet" = 768 ∧
     bpNat darkTheme "desktop" = 1024 ∧
     bpNat theme "mobile" = 480 ∧ bpNat theme "tablet" = 768 ∧
     bpNat theme "desktop" = 1024 ∧
     bpNat baseTheme "mobile" = 480 ∧ bpNat baseTheme "tablet" = 768 ∧
     bpNat baseTheme "desktop" = 1024) ∧
    (∀ w : Nat, w ≤ bpNat lightTheme "mobile" → w ≤ bpNat lightTheme "tablet") ∧
    (∀ w : Nat, gridColumns lightTheme w =
       if w ≤ 480 then 1 else if w ≤ 768 then 2 else 3) ∧
    (∀ w : Nat, gridColumns darkTheme w =
       if w ≤ 480 then 1 else if w ≤ 768 then 2 else 3) ∧
    (∀ w : Nat, gridColumns theme w =
       if w ≤ 480 then 1 else if w ≤ 768 then 2 else 3) := by
  refine ⟨by decide, ?_, ?_, ?_, ?_⟩
  · intro w hw
    have hm : bpNat lightTheme "mobile" = 480 := by decide
    have ht : bpNat lightTheme "tablet" = 768 := by decide
    rw [hm] at hw; rw [ht]; omega
  · intro w
    have ht : bpNat lightTheme "tablet" = 768 := by decide
    have hm : bpNat lightTheme "mobile" = 480 := by decide
    simp [gridColumns, ht, hm]
  · intro w
    have ht : bpNat darkTheme "tablet" = 768 := by decide
    have hm : bpNat darkTheme "mobile" = 480 := by decide
    simp [gridColumns, ht, hm]
  · intro w
    have ht : bpNat theme "tablet" = 768 := by decide
    have hm : bpNat theme "mobile" = 480 := by decide
    simp [gridColumns, ht, hm]

/-- Witness for `breakpoint_ordering_nesting`: a 300px viewport satisfies
the mobile query, so by the nesting clause it satisfies the tablet query. -/
theorem breakpoint_ordering_nesting_witness :
    (300 : Nat) ≤ bpNat lightTheme "tablet" :=
  breakpoint_ordering_nesting.2.1 300 (by decide)

/-- C10: for every props value and every supplied theme, IconButton's
effective style overrides Button's padding with '0' and adds width
'100px', height '40px' and border-radius '30%' regardless of `$size`,
while its background remains Button's `theme.colors[$variant]`. -/
theorem icon_button_override :
    ∀ p : Props,
      iconButtonOverride lightTheme p ∧ iconButtonOverride darkTheme p ∧
      iconButtonOverride theme p := by
  intro p
  exact ⟨⟨rfl, rfl, rfl, rfl, rfl, rfl⟩, ⟨rfl, rfl, rfl, rfl, rfl, rfl⟩,
         ⟨rfl, rfl, rfl, rfl, rfl, rfl⟩⟩
